import Mathlib

/-!
Verification development for the motion-driven percussion synthesizer in
`src/script.js` (class `SpoonSoundApp`; the file holds two near-duplicate
copies of the script, whose motion-gate code is identical line for line).

Embedding conventions:
* JavaScript floating-point numbers are modelled as exact rationals `ℚ`
  (every constant in the source is a short decimal, exactly representable);
* wall-clock milliseconds (`Date.now()`) are integers `ℤ`;
* the ambient `Math.random()` source is made explicit: every draw a code
  path consumes is a parameter, so runs are deterministic and executable;
* DOM / console / WebAudio-graph calls that neither read nor write the
  state the claims are about (CSS classes, `console.log`, node wiring)
  are noted in comments and otherwise dropped;
* a thrown JavaScript exception is modelled as an `Option JsError`
  component of the result, together with the state as mutated up to the
  throw (field assignments that already executed persist on `this`).
-/

namespace BluegrassSpoons

/-- One entry of `this.shakeHistory` (script.js line 836): the L1 delta
magnitude of a motion sample and its arrival time in ms. -/
structure ShakeRecord where
  intensity : ℚ
  timestamp : ℤ
deriving DecidableEq, Repr, Inhabited

/-- One entry of `this.audioInstances` (script.js line 1317): the advisory
voice-cleanup record.  Only the scheduled end time on the audio clock is
ever consulted (by `cleanupAudioInstances`), so the node handle is not
modelled. -/
structure AudioInstance where
  contextTime : ℚ
deriving DecidableEq, Repr, Inhabited

/-- The lifecycle state of a WebAudio `AudioContext`. -/
inductive AudioCtxState where
  | running
  | suspended
  | closed
deriving DecidableEq, Repr

/-- The part of `this.audioContext` the embedded code reads: its state,
its monotonic clock `currentTime` (seconds) and its `sampleRate`. -/
structure AudioCtx where
  state : AudioCtxState
  currentTime : ℚ
  sampleRate : ℚ
deriving DecidableEq, Repr

/-- A 3-axis acceleration reading (`event.acceleration`). -/
structure Accel where
  x : ℚ
  y : ℚ
  z : ℚ
deriving DecidableEq, Repr

/-- A material profile from `this.sounds` (script.js lines 20-54 of the
constructor): the fields the synthesis path reads. -/
structure MaterialProfile where
  frequencies : List ℚ
  filterFreq : ℚ
deriving DecidableEq, Repr

/-- The mutable per-app state the embedded methods touch (fields of
`SpoonSoundApp`). -/
structure AppState where
  lastAcceleration : Accel
  lastMotionTime : ℤ
  lastSoundTime : ℤ
  shakeHistory : List ShakeRecord
  audioInstances : List AudioInstance
  tempo : ℚ
  baseVolume : ℚ
  currentSound : MaterialProfile
deriving DecidableEq, Repr

/-- `this.motionThreshold = 8.0` (script.js line 51). -/
def motionThreshold : ℚ := 8

/-- `this.soundCooldown = 100` ms (script.js line 52). -/
def soundCooldown : ℤ := 100

/-- `this.motionCooldown = 150` ms (script.js line 53). -/
def motionCooldown : ℤ := 150

/-- `Math.abs` on an exact rational. -/
def mathAbs (q : ℚ) : ℚ := if q < 0 then -q else q

/-- `Math.max` on exact rationals. -/
def mathMax (a b : ℚ) : ℚ := if a < b then b else a

/-- `Math.min` on exact rationals. -/
def mathMin (a b : ℚ) : ℚ := if a < b then a else b

/-- The total delta of script.js lines 830-833:
`|Δx| + |Δy| + |Δz|` versus the previous sample. -/
def totalDelta (prev a : Accel) : ℚ :=
  mathAbs (a.x - prev.x) + mathAbs (a.y - prev.y) + mathAbs (a.z - prev.z)

/-- The `recent` selection of `detectVigorousShake` (script.js lines
861-863): history entries with intensity above `motionThreshold * 0.6`
and age below 200 ms. -/
def recentShakes (history : List ShakeRecord) (timestamp : ℤ) : List ShakeRecord :=
  history.filter fun h =>
    decide (motionThreshold * 0.6 < h.intensity) && decide (timestamp - h.timestamp < 200)

/-- `detectVigorousShake` (script.js lines 858-873): fail fast below the
threshold; otherwise a lone recent entry must beat `threshold * 1.2`,
and two or more recent entries must have mean above `threshold * 0.7`. -/
def detectVigorousShake (history : List ShakeRecord) (currentIntensity : ℚ)
    (timestamp : ℤ) : Bool :=
  if currentIntensity < motionThreshold then false
  else if (recentShakes history timestamp).length < 1 then false
  else if (recentShakes history timestamp).length = 1 then
    decide (motionThreshold * 1.2 < (recentShakes history timestamp).headI.intensity)
  else
    decide (motionThreshold * 0.7 <
      ((recentShakes history timestamp).foldl (fun s r => s + r.intensity) 0) /
        ((recentShakes history timestamp).length : ℚ))

/-- The intensity classes of `getCurrentShakeIntensity`. -/
inductive Intensity where
  | light
  | medium
  | strong
deriving DecidableEq, Repr

/-- `getCurrentShakeIntensity` (script.js lines 1122-1128): classify the
single most recent history entry; an empty history defaults to medium. -/
def getCurrentShakeIntensity (history : List ShakeRecord) : Intensity :=
  match history.getLast? with
  | none => Intensity.medium
  | some latest =>
    if motionThreshold * 1.5 < latest.intensity then Intensity.strong
    else if motionThreshold * 1.0 < latest.intensity then Intensity.medium
    else Intensity.light

/-- The record returned by `getRhythmContext` (script.js lines 1130-1141). -/
structure RhythmContext where
  isFastRhythm : Bool
  avgTimeBetween : ℚ
  intensity : Intensity
  shakeCount : ℕ
deriving DecidableEq, Repr

/-- `calculateAverageTimeBetween` (script.js lines 1143-1150): mean of
consecutive timestamp deltas, defaulting to 1000 below two entries. -/
def calculateAverageTimeBetween (shakes : List ShakeRecord) : ℚ :=
  if shakes.length < 2 then 1000
  else
    ((shakes.zip shakes.tail).foldl
        (fun s p => s + ((p.2.timestamp - p.1.timestamp : ℤ) : ℚ)) 0) /
      ((shakes.length - 1 : ℕ) : ℚ)

/-- `getRhythmContext` (script.js lines 1130-1141). -/
def getRhythmContext (st : AppState) (now : ℤ) : RhythmContext :=
  { isFastRhythm := decide (now - st.lastMotionTime < 300)
    avgTimeBetween :=
      calculateAverageTimeBetween
        (st.shakeHistory.filter fun h => decide (now - h.timestamp < 1000))
    intensity := getCurrentShakeIntensity st.shakeHistory
    shakeCount :=
      (st.shakeHistory.filter fun h => decide (now - h.timestamp < 1000)).length }

/-- `cleanupAudioInstances` (script.js lines 1152-1160): keep an entry iff
`inst.contextTime < audioContext.currentTime + 2`; the `catch` branch
(reading `currentTime` of a null context throws) drops the entry. -/
def cleanupAudioInstances (instances : List AudioInstance)
    (audio : Option AudioCtx) : List AudioInstance :=
  instances.filter fun inst =>
    match audio with
    | some ctx => decide (inst.contextTime < ctx.currentTime + 2)
    | none => false

/-- A JavaScript runtime error surfaced by the embedded code. -/
inductive JsError where
  | referenceError (name : String)
deriving DecidableEq, Repr

/-- The `Math.random()` draws consumed by the parameter selection of
`createVariedSpoonPercussion` (script.js lines 1162-1219): one draw for
the burst count and one for the base duration in the intensity switch,
and the draws of the tempo branches. -/
structure ParamDraws where
  rBursts : ℚ
  rDur : ℚ
  rBursts2 : ℚ
  rDur2 : ℚ
deriving DecidableEq, Repr

/-- The four values `createVariedSpoonPercussion` selects before calling
`createSpoonPercussionBursts`. -/
structure BurstParams where
  numBursts : ℚ
  baseDur : ℚ
  volMul : ℚ
  filtMul : ℚ
deriving DecidableEq, Repr

/-- The parameter selection of `createVariedSpoonPercussion` (script.js
lines 1162-1216, identical in both copies): an intensity-keyed base
pattern, a fast-rhythm reduction, then tempo-keyed overrides.
`numBursts` stays a rational because the source keeps the fractional
`Math.random()` contribution (`3 + Math.random() * 2`). -/
def selectBurstParams (intensity : Intensity) (isFastRhythm : Bool) (tempo : ℚ)
    (d : ParamDraws) : BurstParams :=
  let p : BurstParams :=
    match intensity with
    | Intensity.strong => ⟨3 + d.rBursts * 2, 0.08 + d.rDur * 0.04, 1.2, 1.5⟩
    | Intensity.light => ⟨1 + d.rBursts * 2, 0.04 + d.rDur * 0.02, 0.7, 0.8⟩
    | Intensity.medium => ⟨2 + d.rBursts * 2, 0.06 + d.rDur * 0.03, 1.0, 1.0⟩
  let p :=
    if isFastRhythm then
      { p with numBursts := mathMax 1 (p.numBursts - 1), baseDur := p.baseDur * 0.8 }
    else p
  if 2.0 < tempo then
    ⟨4 + ((⌊d.rBursts2 * 4⌋ : ℤ) : ℚ), 0.03 + d.rDur2 * 0.02, 1.3, 1.8⟩
  else if 1.5 < tempo then
    ⟨mathMin (p.numBursts * 2) 6, 0.04 + d.rDur2 * 0.02, 1.1, 1.2⟩
  else if tempo < 0.7 then
    ⟨1, 0.12 + d.rDur2 * 0.06, 0.9, 0.7⟩
  else if tempo < 0.9 then
    ⟨mathMax ((⌊p.numBursts * 0.6⌋ : ℤ) : ℚ) 1, 0.08 + d.rDur2 * 0.04, 0.95, 0.9⟩
  else p

/-- The `Math.random()` draws one loop iteration of
`createSpoonPercussionBursts` may consume (script.js lines 1222-1318):
timing variation, duration factor, filter jitter, filter Q, and the two
volume draws. -/
structure BurstDraws where
  rTiming : ℚ
  rDur : ℚ
  rFilt : ℚ
  rQ : ℚ
  rVol : ℚ
  rVolMid : ℚ
deriving DecidableEq, Repr

/-- One scheduled sound-producing unit: start/stop time on the audio
clock, peak volume and filter centre frequency.  Envelope ramp points and
the noise-buffer contents (script.js lines 1253-1260, 1310-1312) are
functions of these values and the draws and are not separately tracked. -/
structure Voice where
  start : ℚ
  stop : ℚ
  vol : ℚ
  filterFreq : ℚ
deriving DecidableEq, Repr

/-- `createSpoonPercussionBursts` (first copy, script.js lines 1221-1319):
burst `i` of `numBursts` (the JS loop `i < numBursts` over a fractional
bound runs `⌈numBursts⌉` times).  Timing, duration, volume and filter
centre follow the tempo-keyed branches of the source; the zero-length
buffer clamp (`Math.max(1, ...)`, line 1254) affects only the untracked
noise buffer. -/
def createSpoonPercussionBursts (cfg : MaterialProfile) (startTime : ℚ)
    (numBursts baseDur volMul filtMul finalVolume tempo : ℚ)
    (bd : ℕ → BurstDraws) : List Voice :=
  (List.range (Int.ceil numBursts).toNat).map fun i =>
    let d := bd i
    let t :=
      if 2.0 < tempo then
        startTime + (i : ℚ) * 0.003 + (i : ℚ) * 0.001 + (d.rTiming - 0.5) * 0.002
      else if 1.5 < tempo then
        startTime + (i : ℚ) * 0.008 + (if i % 2 = 0 then (0.002 : ℚ) else 0.012)
      else if tempo < 0.7 then startTime + (i : ℚ) * 0.08
      else if tempo < 0.9 then startTime + (i : ℚ) * 0.04
      else startTime + (i : ℚ) * 0.015 + (d.rTiming - 0.5) * 0.005
    let dur := baseDur * (0.8 + d.rDur * 0.4)
    let vol :=
      if 2.0 < tempo then
        let baseVol := finalVolume * (1.2 + d.rVol * 0.6) * volMul
        if i = 0 then baseVol * 1.3
        else if (i : ℚ) = numBursts - 1 then baseVol * 0.9
        else baseVol * (0.8 + d.rVolMid * 0.4)
      else if 1.5 < tempo then
        finalVolume * (1.0 + d.rVol * 0.4) * volMul *
          (if i % 2 = 0 then (1.2 : ℚ) else 0.9)
      else finalVolume * (0.9 + d.rVol * 0.4) * volMul * (1 - (i : ℚ) * 0.15)
    ⟨t, t + dur, vol, cfg.filterFreq * filtMul * (0.8 + d.rFilt * 0.4)⟩

/-- `createVariedSpoonPercussion` (first copy, script.js lines 1162-1219):
select burst parameters, then generate the bursts. -/
def createVariedSpoonPercussion (cfg : MaterialProfile) (startTime : ℚ)
    (intensity : Intensity) (rhythm : RhythmContext) (finalVolume tempo : ℚ)
    (pd : ParamDraws) (bd : ℕ → BurstDraws) : List Voice :=
  let p := selectBurstParams intensity rhythm.isFastRhythm tempo pd
  createSpoonPercussionBursts cfg startTime p.numBursts p.baseDur p.volMul
    p.filtMul finalVolume tempo bd

/-- Embeds the first copy of `createRichMaterialTone` (script.js lines
1322-1446).  Before any oscillator is started, the `console.log` at line
1333 reads `toneVol`, a local declared only by the `let` at line 1357;
a JavaScript `let` binding is in its temporal dead zone until the
declaration executes, so every call throws a ReferenceError and no tonal
voice is ever scheduled. -/
def createRichMaterialTone1 ( _cfg : MaterialProfile) ( _startTime : ℚ)
    ( _intensity : Intensity) ( _rhythm : RhythmContext) ( _finalVolume : ℚ)
    ( _tempo : ℚ) : List Voice × Option JsError :=
  ([], some (JsError.referenceError "toneVol"))

/-- Embeds the second copy of `createRichMaterialTone` (script.js lines
2090-2193).  Its parameter list (line 2090) has no `tempo`, yet line 2130
reads the bare identifier `tempo`; class bodies are strict-mode code and
no binding named `tempo` is in scope, so the read throws a ReferenceError.
Lines 2092-2104 only create and connect graph nodes, never starting them,
so no voice is scheduled before the throw. -/
def createRichMaterialTone2 ( _cfg : MaterialProfile) ( _startTime : ℚ)
    ( _intensity : Intensity) ( _rhythm : RhythmContext) ( _finalVolume : ℚ) :
    List Voice × Option JsError :=
  ([], some (JsError.referenceError "tempo"))

/-- The guard condition of `playSpoonSound` (script.js line 917):
the audio context is absent or not running. -/
def audioNotReady : Option AudioCtx → Bool
  | none => true
  | some ctx => ctx.state != AudioCtxState.running

/-- `playSpoonSound` (first copy, script.js lines 916-939): a no-op unless
the audio context is running; otherwise schedule the noise bursts, then
call `createRichMaterialTone`, whose unconditional throw (line 1333)
propagates, skipping the display update and `cleanupAudioInstances`.
Result: the state as mutated so far, the voices started, and the thrown
error if any. -/
def playSpoonSound (st : AppState) (audio : Option AudioCtx) (wallNow : ℤ)
    (pd : ParamDraws) (bd : ℕ → BurstDraws) :
    AppState × List Voice × Option JsError :=
  match audio with
  | none => (st, [], none)
  | some ctx =>
    if ctx.state ≠ AudioCtxState.running then (st, [], none)
    else
      let cfg := st.currentSound
      let now := ctx.currentTime
      let intensity := getCurrentShakeIntensity st.shakeHistory
      let rhythm := getRhythmContext st wallNow
      let intensityFactor : ℚ :=
        match intensity with
        | Intensity.strong => 1.0
        | Intensity.medium => 0.7
        | Intensity.light => 0.4
      let finalVolume := st.baseVolume * intensityFactor
      let bursts := createVariedSpoonPercussion cfg now intensity rhythm
        finalVolume st.tempo pd bd
      let st1 :=
        { st with audioInstances :=
            st.audioInstances ++ bursts.map (fun (v : Voice) => AudioInstance.mk v.stop) }
      match createRichMaterialTone1 cfg now intensity rhythm finalVolume st.tempo with
      | (tv, some e) => (st1, bursts ++ tv, some e)
      | (tv, none) =>
        let st2 :=
          { st1 with audioInstances :=
              st1.audioInstances ++ tv.map (fun (v : Voice) => AudioInstance.mk v.stop) }
        ({ st2 with audioInstances := cleanupAudioInstances st2.audioInstances audio },
          bursts ++ tv, none)

/-- `triggerSound` (script.js lines 890-914): debounce on `soundCooldown`,
record `lastSoundTime`, then play.  The spoon-animation DOM work (lines
897-910) touches no modelled state. -/
def triggerSound (st : AppState) (now : ℤ) (audio : Option AudioCtx)
    (pd : ParamDraws) (bd : ℕ → BurstDraws) :
    AppState × List Voice × Option JsError :=
  if now - st.lastSoundTime < soundCooldown then (st, [], none)
  else playSpoonSound { st with lastSoundTime := now } audio now pd bd

/-- The shake history after the push-and-evict of script.js lines 835-837:
append the new record, then keep entries with `now - timestamp < 500`. -/
def updatedHistory (st : AppState) (a : Accel) (now : ℤ) : List ShakeRecord :=
  (st.shakeHistory ++ [ShakeRecord.mk (totalDelta st.lastAcceleration a) now]).filter
    fun h => decide (now - h.timestamp < 500)

/-- The hit gate of script.js line 849: the vigour test on the freshly
updated history, and the strict motion cooldown. -/
def motionGateFires (st : AppState) (a : Accel) (now : ℤ) : Bool :=
  detectVigorousShake (updatedHistory st a now) (totalDelta st.lastAcceleration a) now
    && decide (motionCooldown < now - st.lastMotionTime)

/-- `handleMotion` (script.js lines 811-856): missing acceleration data
skips the tick; otherwise update the history, and when the gate fires set
`lastMotionTime` and call `triggerSound`.  A throw escaping `triggerSound`
(the tone-layer ReferenceError) skips the `lastAcceleration` update at
line 855; the `isListening` guard and motion-meter DOM update touch no
modelled state.  Result: new state, whether a hit was emitted, and the
escaped error if any. -/
def handleMotion (st : AppState) (acc : Option Accel) (now : ℤ)
    (audio : Option AudioCtx) (pd : ParamDraws) (bd : ℕ → BurstDraws) :
    AppState × Bool × Option JsError :=
  match acc with
  | none => (st, false, none)
  | some a =>
    if motionGateFires st a now then
      let ts := triggerSound
        { st with shakeHistory := updatedHistory st a now, lastMotionTime := now }
        now audio pd bd
      match ts.2.2 with
      | some e => (ts.1, true, some e)
      | none => ({ ts.1 with lastAcceleration := a }, true, none)
    else
      ({ st with shakeHistory := updatedHistory st a now, lastAcceleration := a },
        false, none)

/-- One motion callback: the (possibly missing) acceleration reading and
its `Date.now()` arrival time. -/
structure MotionSample where
  acc : Option Accel
  now : ℤ
deriving Repr

/-- Run `handleMotion` over a sequence of motion samples, collecting the
timestamps at which hits were emitted (calls into `triggerSound` from the
gate).  Per-step audio state and random draws are indexed by the step
counter `k`. -/
def runMotion (st : AppState) (samples : List MotionSample)
    (audio : ℕ → Option AudioCtx) (pds : ℕ → ParamDraws)
    (bds : ℕ → ℕ → BurstDraws) (k : ℕ) : AppState × List ℤ :=
  match samples with
  | [] => (st, [])
  | s :: rest =>
    let r := handleMotion st s.acc s.now (audio k) (pds k) (bds k)
    let next := runMotion r.1 rest audio pds bds (k + 1)
    (next.1, (if r.2.1 then [s.now] else []) ++ next.2)

/-- The minimum separation the spec demands between two emitted hits:
strictly more than the motion cooldown apart. -/
def hitSeparated (a b : ℤ) : Prop := motionCooldown < b - a

instance : IsTrans ℤ hitSeparated := by
  constructor
  intro a b c hab hbc
  unfold hitSeparated motionCooldown at *
  omega

instance (a b : ℤ) : Decidable (hitSeparated a b) := by
  unfold hitSeparated
  infer_instance

theorem playSpoonSound_fields (st : AppState) (audio : Option AudioCtx)
    (wallNow : ℤ) (pd : ParamDraws) (bd : ℕ → BurstDraws) :
    (playSpoonSound st audio wallNow pd bd).1.lastMotionTime = st.lastMotionTime ∧
    (playSpoonSound st audio wallNow pd bd).1.shakeHistory = st.shakeHistory ∧
    (playSpoonSound st audio wallNow pd bd).1.lastSoundTime = st.lastSoundTime ∧
    (playSpoonSound st audio wallNow pd bd).1.lastAcceleration = st.lastAcceleration := by
  rcases audio with _ | ctx
  · simp [playSpoonSound]
  · simp only [playSpoonSound]
    split_ifs <;> simp [createRichMaterialTone1]

theorem triggerSound_fields (st : AppState) (now : ℤ) (audio : Option AudioCtx)
    (pd : ParamDraws) (bd : ℕ → BurstDraws) :
    (triggerSound st now audio pd bd).1.lastMotionTime = st.lastMotionTime ∧
    (triggerSound st now audio pd bd).1.shakeHistory = st.shakeHistory ∧
    (triggerSound st now audio pd bd).1.lastAcceleration = st.lastAcceleration := by
  unfold triggerSound
  split_ifs with h
  · exact ⟨rfl, rfl, rfl⟩
  · obtain ⟨h1, h2, _h3, h4⟩ :=
      playSpoonSound_fields { st with lastSoundTime := now } audio now pd bd
    exact ⟨h1, h2, h4⟩

theorem handleMotion_hit_eq_gate (st : AppState) (a : Accel) (now : ℤ)
    (audio : Option AudioCtx) (pd : ParamDraws) (bd : ℕ → BurstDraws) :
    (handleMotion st (some a) now audio pd bd).2.1 = motionGateFires st a now := by
  by_cases hg : motionGateFires st a now = true
  · simp only [handleMotion, hg, if_true]
    rcases he : (triggerSound
        { st with shakeHistory := updatedHistory st a now, lastMotionTime := now }
        now audio pd bd).2.2 with _ | e <;> simp [he]
  · simp [handleMotion, hg]

theorem handleMotion_hit_lastMotionTime (st : AppState) (a : Accel) (now : ℤ)
    (audio : Option AudioCtx) (pd : ParamDraws) (bd : ℕ → BurstDraws)
    (h : (handleMotion st (some a) now audio pd bd).2.1 = true) :
    (handleMotion st (some a) now audio pd bd).1.lastMotionTime = now ∧
    motionCooldown < now - st.lastMotionTime := by
  have hg : motionGateFires st a now = true := by
    rw [← handleMotion_hit_eq_gate st a now audio pd bd]
    exact h
  have hcool : motionCooldown < now - st.lastMotionTime := by
    have := (Bool.and_eq_true _ _).mp hg
    exact of_decide_eq_true this.2
  refine ⟨?_, hcool⟩
  simp only [handleMotion, hg, if_true]
  have hts := (triggerSound_fields
    { st with shakeHistory := updatedHistory st a now, lastMotionTime := now }
    now audio pd bd).1
  rcases he : (triggerSound
      { st with shakeHistory := updatedHistory st a now, lastMotionTime := now }
      now audio pd bd).2.2 with _ | e <;> simp [he, hts]

theorem handleMotion_noHit_lastMotionTime (st : AppState) (a : Accel) (now : ℤ)
    (audio : Option AudioCtx) (pd : ParamDraws) (bd : ℕ → BurstDraws)
    (h : (handleMotion st (some a) now audio pd bd).2.1 = false) :
    (handleMotion st (some a) now audio pd bd).1.lastMotionTime = st.lastMotionTime := by
  have hg : motionGateFires st a now = false := by
    rw [← handleMotion_hit_eq_gate st a now audio pd bd]
    exact h
  simp [handleMotion, hg]

theorem runMotion_chain (samples : List MotionSample) :
    ∀ (st : AppState) (audio : ℕ → Option AudioCtx) (pds : ℕ → ParamDraws)
      (bds : ℕ → ℕ → BurstDraws) (k : ℕ),
      List.Chain' hitSeparated
        (st.lastMotionTime :: (runMotion st samples audio pds bds k).2) := by
  induction samples with
  | nil =>
    intro st audio pds bds k
    simp [runMotion]
  | cons s rest ih =>
    intro st audio pds bds k
    rcases s with ⟨acc, now⟩
    rcases acc with _ | a
    · simpa [runMotion, handleMotion] using ih st audio pds bds (k + 1)
    · simp only [runMotion]
      rcases hhit : (handleMotion st (some a) now (audio k) (pds k) (bds k)).2.1 with _ | _
      · have hlmt := handleMotion_noHit_lastMotionTime st a now (audio k) (pds k) (bds k) hhit
        have := ih (handleMotion st (some a) now (audio k) (pds k) (bds k)).1 audio pds bds (k + 1)
        rw [hlmt] at this
        simpa using this
      · obtain ⟨hlmt, hcool⟩ :=
          handleMotion_hit_lastMotionTime st a now (audio k) (pds k) (bds k) hhit
        have hch := ih (handleMotion st (some a) now (audio k) (pds k) (bds k)).1 audio pds bds (k + 1)
        rw [hlmt] at hch
        simp only [hhit, if_true]
        exact List.chain'_cons.mpr ⟨hcool, hch⟩

/-- C1: across any sequence of motion samples, the hits the motion gate
emits (calls into `triggerSound` from `handleMotion`) are pairwise more
than `motionCooldown` (150 ms) apart: `lastMotionTime` is set exactly at
each emitted hit, and the gate suppresses a vigorous sample unless
`now - lastMotionTime` strictly exceeds the cooldown. -/
theorem motion_hits_respect_cooldown (st : AppState) (samples : List MotionSample)
    (audio : ℕ → Option AudioCtx) (pds : ℕ → ParamDraws)
    (bds : ℕ → ℕ → BurstDraws) (k : ℕ) :
    List.Pairwise hitSeparated (runMotion st samples audio pds bds k).2 := by
  have h := runMotion_chain samples st audio pds bds k
  exact List.chain'_iff_pairwise.mp h.tail

theorem handleMotion_shakeHistory (st : AppState) (a : Accel) (now : ℤ)
    (audio : Option AudioCtx) (pd : ParamDraws) (bd : ℕ → BurstDraws) :
    (handleMotion st (some a) now audio pd bd).1.shakeHistory = updatedHistory st a now := by
  by_cases hg : motionGateFires st a now = true
  · simp only [handleMotion, hg, if_true]
    have hts := (triggerSound_fields
      { st with shakeHistory := updatedHistory st a now, lastMotionTime := now }
      now audio pd bd).2.1
    rcases he : (triggerSound
        { st with shakeHistory := updatedHistory st a now, lastMotionTime := now }
        now audio pd bd).2.2 with _ | e <;> simp [he, hts]
  · simp [handleMotion, hg]

/-- C2: after `handleMotion` processes a sample arriving at time `now`,
the shake history contains no entry older than the 500 ms retention
window (no entry with `now - timestamp ≥ 500`): the time-predicate
eviction runs on every update, right after the new entry is appended. -/
theorem history_window_invariant (st : AppState) (a : Accel) (now : ℤ)
    (audio : Option AudioCtx) (pd : ParamDraws) (bd : ℕ → BurstDraws)
    (h : ShakeRecord)
    (hmem : h ∈ (handleMotion st (some a) now audio pd bd).1.shakeHistory) :
    now - h.timestamp < 500 := by
  rw [handleMotion_shakeHistory] at hmem
  unfold updatedHistory at hmem
  have hp := List.of_mem_filter hmem
  exact of_decide_eq_true hp

/-- A material profile with the wooden-spoon constants (script.js lines
22-28 of the first constructor), used to evaluate concrete runs. -/
def sampleProfile : MaterialProfile := ⟨[150, 200, 250, 300], 400⟩

/-- A freshly constructed app state (constructor defaults of the first
copy: zero previous acceleration, zero timers, empty lists, tempo 1,
base volume 4). -/
def sampleState : AppState := ⟨⟨0, 0, 0⟩, 0, 0, [], [], 1, 4, sampleProfile⟩

/-- A fixed all-zero draw for the parameter selection. -/
def pd0 : ParamDraws := ⟨0, 0, 0, 0⟩

/-- A fixed all-zero draw stream for the burst loop. -/
def bd0 : ℕ → BurstDraws := fun _ => ⟨0, 0, 0, 0, 0, 0⟩

theorem history_window_invariant_witness :
    ShakeRecord.mk 10 1000 ∈
      (handleMotion sampleState (some ⟨10, 0, 0⟩) 1000 none pd0 bd0).1.shakeHistory ∧
    (1000 : ℤ) - (1000 : ℤ) < 500 := by
  have hmem : ShakeRecord.mk 10 1000 ∈
      (handleMotion sampleState (some ⟨10, 0, 0⟩) 1000 none pd0 bd0).1.shakeHistory := by
    norm_num [handleMotion, motionGateFires, updatedHistory, totalDelta, mathAbs,
      detectVigorousShake, recentShakes, triggerSound, playSpoonSound, sampleState,
      sampleProfile, pd0, bd0, motionThreshold, motionCooldown, soundCooldown]
  exact ⟨hmem,
    history_window_invariant sampleState ⟨10, 0, 0⟩ 1000 none pd0 bd0 ⟨10, 1000⟩ hmem⟩

/-- C7 (amended): a sample whose total delta is strictly below the shake
threshold never fires a hit, whatever the prior history; the non-strict
bound of the claim fails at exactly the threshold, where the fast-fail
guard (`currentIntensity < motionThreshold`, line 859) does not apply. -/
theorem below_threshold_no_hit (st : AppState) (a : Accel) (now : ℤ)
    (audio : Option AudioCtx) (pd : ParamDraws) (bd : ℕ → BurstDraws)
    (hlow : totalDelta st.lastAcceleration a < motionThreshold) :
    (handleMotion st (some a) now audio pd bd).2.1 = false := by
  rw [handleMotion_hit_eq_gate]
  unfold motionGateFires detectVigorousShake
  rw [if_pos hlow]
  rfl

theorem below_threshold_no_hit_witness :
    totalDelta sampleState.lastAcceleration ⟨7, 0, 0⟩ < motionThreshold ∧
    (handleMotion sampleState (some ⟨7, 0, 0⟩) 1000 none pd0 bd0).2.1 = false := by
  have hlow : totalDelta sampleState.lastAcceleration ⟨7, 0, 0⟩ < motionThreshold := by
    norm_num [totalDelta, mathAbs, sampleState, motionThreshold]
  exact ⟨hlow, below_threshold_no_hit sampleState ⟨7, 0, 0⟩ 1000 none pd0 bd0 hlow⟩

/-- C7 counterexample: with a strong recent entry already in the history,
an isolated spike of total delta exactly equal to the threshold — so
`M ≤ shakeThreshold` as the claim quantifies — still fires a hit: the
fast-fail guard is strict, and the sustained-mean branch then triggers. -/
theorem below_threshold_no_hit_cex :
    totalDelta (Accel.mk 0 0 0) (Accel.mk 8 0 0) ≤ motionThreshold ∧
    (handleMotion ⟨⟨0, 0, 0⟩, 0, 0, [⟨100, 990⟩], [], 1, 4, sampleProfile⟩
        (some ⟨8, 0, 0⟩) 1000 none pd0 bd0).2.1 = true := by
  constructor
  · norm_num [totalDelta, mathAbs, motionThreshold]
  · norm_num [handleMotion, motionGateFires, updatedHistory, totalDelta, mathAbs,
      detectVigorousShake, recentShakes, triggerSound, playSpoonSound,
      sampleProfile, pd0, bd0, motionThreshold, motionCooldown, soundCooldown]

/-- C3: for a current intensity not below the threshold, the detector
triggers iff, among the recent entries (intensity above `threshold * 0.6`
and age below the 200 ms correlation window), there is exactly one and it
exceeds `threshold * 1.2`, or there are two or more and their mean
exceeds `threshold * 0.7` — with strict inequalities at each bar. -/
theorem detect_vigorous_shake_characterization (history : List ShakeRecord)
    (c : ℚ) (t : ℤ) (h : ¬ c < motionThreshold) :
    detectVigorousShake history c t = true ↔
      ((∃ x, recentShakes history t = [x] ∧ motionThreshold * 1.2 < x.intensity) ∨
       (2 ≤ (recentShakes history t).length ∧
        motionThreshold * 0.7 <
          ((recentShakes history t).foldl (fun s r => s + r.intensity) 0) /
            ((recentShakes history t).length : ℚ))) := by
  unfold detectVigorousShake
  rw [if_neg h]
  rcases hr : recentShakes history t with _ | ⟨x, rest⟩
  · simp [hr]
  · rcases rest with _ | ⟨y, rest2⟩
    · simp [hr, List.headI]
    · have hlen : (x :: y :: rest2).length = rest2.length + 2 := by
        simp [List.length_cons]
      simp only [hr, hlen]
      rw [if_neg (by omega), if_neg (by omega)]
      simp only [decide_eq_true_eq]
      constructor
      · intro hq
        exact Or.inr ⟨by omega, by simpa [hlen] using hq⟩
      · intro hq
        rcases hq with ⟨z, hz, _⟩ | ⟨_, hq⟩
        · exact absurd hz (by simp)
        · simpa [hlen] using hq

theorem detect_vigorous_shake_characterization_witness :
    ¬ (10 : ℚ) < motionThreshold ∧
    (detectVigorousShake [⟨10, 1000⟩] 10 1000 = true ↔
      ((∃ x, recentShakes [⟨10, 1000⟩] 1000 = [x] ∧
          motionThreshold * 1.2 < x.intensity) ∨
       (2 ≤ (recentShakes [⟨10, 1000⟩] 1000).length ∧
        motionThreshold * 0.7 <
          ((recentShakes [⟨10, 1000⟩] 1000).foldl (fun s r => s + r.intensity) 0) /
            ((recentShakes [⟨10, 1000⟩] 1000).length : ℚ)))) := by
  have h : ¬ (10 : ℚ) < motionThreshold := by norm_num [motionThreshold]
  exact ⟨h, detect_vigorous_shake_characterization [⟨10, 1000⟩] 10 1000 h⟩

/-- The order of the intensity classes, light below medium below strong. -/
def intensityRank : Intensity → ℕ
  | Intensity.light => 0
  | Intensity.medium => 1
  | Intensity.strong => 2

theorem getCurrentShakeIntensity_concat (hist : List ShakeRecord) (x : ShakeRecord) :
    getCurrentShakeIntensity (hist ++ [x]) =
      if motionThreshold * 1.5 < x.intensity then Intensity.strong
      else if motionThreshold * 1.0 < x.intensity then Intensity.medium
      else Intensity.light := by
  unfold getCurrentShakeIntensity
  rw [List.getLast?_concat]

/-- C8: `getCurrentShakeIntensity` depends only on the most recent history
entry — strong above `threshold * 1.5`, else medium above
`threshold * 1.0`, else light, and medium on an empty history — and the
classification is monotone non-decreasing in the intensity of that entry. -/
theorem intensity_classification_spec :
    (getCurrentShakeIntensity [] = Intensity.medium) ∧
    (∀ (hist : List ShakeRecord) (x : ShakeRecord),
      getCurrentShakeIntensity (hist ++ [x]) =
        if motionThreshold * 1.5 < x.intensity then Intensity.strong
        else if motionThreshold * 1.0 < x.intensity then Intensity.medium
        else Intensity.light) ∧
    (∀ (hist hist2 : List ShakeRecord) (x y : ShakeRecord),
      x.intensity ≤ y.intensity →
      intensityRank (getCurrentShakeIntensity (hist ++ [x])) ≤
        intensityRank (getCurrentShakeIntensity (hist2 ++ [y]))) := by
  refine ⟨rfl, getCurrentShakeIntensity_concat, ?_⟩
  intro hist hist2 x y hxy
  rw [getCurrentShakeIntensity_concat, getCurrentShakeIntensity_concat]
  split_ifs with h1 h2 h3 h4 <;> simp [intensityRank] <;> linarith

theorem playSpoonSound_noop (st : AppState) (audio : Option AudioCtx)
    (wallNow : ℤ) (pd : ParamDraws) (bd : ℕ → BurstDraws)
    (h : audioNotReady audio = true) :
    playSpoonSound st audio wallNow pd bd = (st, [], none) := by
  rcases audio with _ | ctx
  · rfl
  · have hs : ctx.state ≠ AudioCtxState.running := by
      simpa [audioNotReady] using h
    simp [playSpoonSound, hs]

/-- C5: when the audio context is absent or not running, `playSpoonSound`
returns at once: no voice is scheduled, nothing is thrown, and the state
(including the cleanup list) is untouched, so nothing is queued to replay
later. -/
theorem render_noop_when_audio_not_running (st : AppState)
    (audio : Option AudioCtx) (wallNow : ℤ) (pd : ParamDraws)
    (bd : ℕ → BurstDraws) (h : audioNotReady audio = true) :
    playSpoonSound st audio wallNow pd bd = (st, [], none) :=
  playSpoonSound_noop st audio wallNow pd bd h

theorem render_noop_when_audio_not_running_witness :
    audioNotReady none = true ∧
    playSpoonSound sampleState none 0 pd0 bd0 = (sampleState, [], none) :=
  ⟨rfl, render_noop_when_audio_not_running sampleState none 0 pd0 bd0 rfl⟩

/-- C10: a manual trigger while the audio output is not running still
consumes the cooldown: `triggerSound` records `lastSoundTime := now`
before `playSpoonSound` checks the audio state, so although no voice is
scheduled, a second trigger within `soundCooldown` ms is also suppressed
and leaves the state unchanged. -/
theorem silent_trigger_consumes_cooldown (st : AppState) (now now2 : ℤ)
    (audio : Option AudioCtx) (pd pd2 : ParamDraws) (bd bd2 : ℕ → BurstDraws)
    (haudio : audioNotReady audio = true)
    (h1 : ¬ now - st.lastSoundTime < soundCooldown)
    (h2 : now2 - now < soundCooldown) :
    triggerSound st now audio pd bd = ({ st with lastSoundTime := now }, [], none) ∧
    triggerSound { st with lastSoundTime := now } now2 audio pd2 bd2 =
      ({ st with lastSoundTime := now }, [], none) := by
  constructor
  · unfold triggerSound
    rw [if_neg h1]
    exact playSpoonSound_noop _ audio now pd bd haudio
  · unfold triggerSound
    rw [if_pos (show now2 - ({ st with lastSoundTime := now } : AppState).lastSoundTime <
      soundCooldown from h2)]

theorem silent_trigger_consumes_cooldown_witness :
    triggerSound sampleState 1000 none pd0 bd0 =
      ({ sampleState with lastSoundTime := 1000 }, [], none) ∧
    triggerSound { sampleState with lastSoundTime := 1000 } 1050 none pd0 bd0 =
      ({ sampleState with lastSoundTime := 1000 }, [], none) :=
  silent_trigger_consumes_cooldown sampleState 1000 1050 none pd0 pd0 bd0 bd0
    rfl (by decide) (by decide)

/-- C4, evaluated at failing inputs (a code bug, not a property of the
code): with a running audio context the render path of the first copy throws
the `toneVol` temporal-dead-zone ReferenceError out of
`createRichMaterialTone` (script.js line 1333), and the second copy of
`createRichMaterialTone` throws on its undeclared `tempo` read (line
2130) — so the core synthesis path propagates an exception on every hit
instead of degrading to silence. -/
theorem render_path_throws :
    (playSpoonSound sampleState (some ⟨AudioCtxState.running, 10, 44100⟩)
        1000 pd0 bd0).2.2 = some (JsError.referenceError "toneVol") ∧
    (createRichMaterialTone2 sampleProfile 10 Intensity.medium
        ⟨false, 1000, Intensity.medium, 0⟩ 1).2 =
      some (JsError.referenceError "tempo") := by
  constructor
  · simp [playSpoonSound, createRichMaterialTone1]
  · rfl

/-- C6, evaluated at failing inputs (a code bug, not a property of the
code): `cleanupAudioInstances` keeps entries with
`contextTime < currentTime + 2`, the reverse of the documented pruning —
an entry that expired 100 s ago is retained, while one still scheduled to
play 5 s from now is dropped. -/
theorem cleanup_filter_is_inverted :
    cleanupAudioInstances [⟨0⟩] (some ⟨AudioCtxState.running, 100, 44100⟩) = [⟨0⟩] ∧
    cleanupAudioInstances [⟨105⟩] (some ⟨AudioCtxState.running, 100, 44100⟩) = [] := by
  constructor <;> norm_num [cleanupAudioInstances]

theorem mathMax_one_sub_le (n : ℚ) (hn : 1 ≤ n) : mathMax 1 (n - 1) ≤ n := by
  unfold mathMax
  split_ifs <;> linarith

theorem mathMin_mono_left (a b c : ℚ) (hab : a ≤ b) : mathMin a c ≤ mathMin b c := by
  unfold mathMin
  split_ifs <;> linarith

theorem mathMax_mono_left (a b c : ℚ) (hab : a ≤ b) : mathMax a c ≤ mathMax b c := by
  unfold mathMax
  split_ifs <;> linarith

theorem floor_scaled_mono (a b : ℚ) (hab : a ≤ b) :
    ((⌊a * 0.6⌋ : ℤ) : ℚ) ≤ ((⌊b * 0.6⌋ : ℤ) : ℚ) := by
  have h1 : a * 0.6 ≤ b * 0.6 := by nlinarith
  have h2 : ⌊a * 0.6⌋ ≤ ⌊b * 0.6⌋ := Int.floor_le_floor h1
  exact_mod_cast h2

/-- C9: with the same random draws, the burst-parameter selection under a
fast-rhythm context never yields a larger burst count or a longer base
burst duration than under a normal context, for every intensity class and
tempo. -/
theorem fast_rhythm_never_longer (intensity : Intensity) (tempo : ℚ)
    (d : ParamDraws) (hb : 0 ≤ d.rBursts) (hd : 0 ≤ d.rDur) :
    (selectBurstParams intensity true tempo d).numBursts ≤
      (selectBurstParams intensity false tempo d).numBursts ∧
    (selectBurstParams intensity true tempo d).baseDur ≤
      (selectBurstParams intensity false tempo d).baseDur := by
  rcases intensity
  case light =>
    have hn : (1 : ℚ) ≤ 1 + d.rBursts * 2 := by linarith
    have hd0 : (0 : ℚ) ≤ 0.04 + d.rDur * 0.02 := by linarith
    simp only [selectBurstParams, eq_self_iff_true, if_true, Bool.false_eq_true, if_false]
    split_ifs with h1 h2 h3 h4
    · exact ⟨le_refl _, le_refl _⟩
    · exact ⟨mathMin_mono_left _ _ _ (by nlinarith [mathMax_one_sub_le _ hn]), le_refl _⟩
    · exact ⟨le_refl _, le_refl _⟩
    · exact ⟨mathMax_mono_left _ _ _ (floor_scaled_mono _ _ (mathMax_one_sub_le _ hn)),
        le_refl _⟩
    · exact ⟨mathMax_one_sub_le _ hn, by nlinarith⟩
  case medium =>
    have hn : (1 : ℚ) ≤ 2 + d.rBursts * 2 := by linarith
    have hd0 : (0 : ℚ) ≤ 0.06 + d.rDur * 0.03 := by linarith
    simp only [selectBurstParams, eq_self_iff_true, if_true, Bool.false_eq_true, if_false]
    split_ifs with h1 h2 h3 h4
    · exact ⟨le_refl _, le_refl _⟩
    · exact ⟨mathMin_mono_left _ _ _ (by nlinarith [mathMax_one_sub_le _ hn]), le_refl _⟩
    · exact ⟨le_refl _, le_refl _⟩
    · exact ⟨mathMax_mono_left _ _ _ (floor_scaled_mono _ _ (mathMax_one_sub_le _ hn)),
        le_refl _⟩
    · exact ⟨mathMax_one_sub_le _ hn, by nlinarith⟩
  case strong =>
    have hn : (1 : ℚ) ≤ 3 + d.rBursts * 2 := by linarith
    have hd0 : (0 : ℚ) ≤ 0.08 + d.rDur * 0.04 := by linarith
    simp only [selectBurstParams, eq_self_iff_true, if_true, Bool.false_eq_true, if_false]
    split_ifs with h1 h2 h3 h4
    · exact ⟨le_refl _, le_refl _⟩
    · exact ⟨mathMin_mono_left _ _ _ (by nlinarith [mathMax_one_sub_le _ hn]), le_refl _⟩
    · exact ⟨le_refl _, le_refl _⟩
    · exact ⟨mathMax_mono_left _ _ _ (floor_scaled_mono _ _ (mathMax_one_sub_le _ hn)),
        le_refl _⟩
    · exact ⟨mathMax_one_sub_le _ hn, by nlinarith⟩

theorem fast_rhythm_never_longer_witness :
    (0 : ℚ) ≤ pd0.rBursts ∧ (0 : ℚ) ≤ pd0.rDur ∧
    ((selectBurstParams Intensity.medium true 1 pd0).numBursts ≤
        (selectBurstParams Intensity.medium false 1 pd0).numBursts ∧
      (selectBurstParams Intensity.medium true 1 pd0).baseDur ≤
        (selectBurstParams Intensity.medium false 1 pd0).baseDur) := by
  have hb : (0 : ℚ) ≤ pd0.rBursts := by norm_num [pd0]
  have hd : (0 : ℚ) ≤ pd0.rDur := by norm_num [pd0]
  exact ⟨hb, hd, fast_rhythm_never_longer Intensity.medium 1 pd0 hb hd⟩

end BluegrassSpoons
